import Mathlib

/-!
Shallow embedding of the AirwaySegmentation Slicer module
(src/AirwaySegmentation/AirwaySegmentation.py).

The module is orchestration glue: a widget syncing three node selectors with
a parameter node, and a logic class that invokes an external CLI executable
with a fixed parameter dictionary, imports the resulting label map into a
segmentation node, and tags the first segment with a fixed terminology string.

Modelling conventions:
- MRML nodes are identified by natural-number ids; the scene is the list of
  ids currently present, plus a counter generating fresh ids.
- Host APIs (DICOM database, the external CLI together with the
  label-map import) are parameters of the model (an environment), since
  their behavior lives outside this repository.
- Python errors (ValueError, IndexError from split()[0], AttributeError from
  None.SetTag) are explicit values; process returns a trace recording the
  error (if any), the scene at return or raise time, the list of CLI
  invocations performed, the warnings logged, and the final content of the
  output segmentation node.
-/

namespace AirwaySegmentation

/-- A segment inside a segmentation node: its name and the terminology tag
(the one tag the module sets). -/
structure Segment where
  name : String
  terminologyTag : Option String
deriving DecidableEq

/-- A vtkMRMLSegmentationNode: node id, its list of segments, and the
conversion parameter "Smoothing factor" (None when never set). -/
structure SegmentationNode where
  id : Nat
  segments : List Segment
  smoothingFactor : Option String
deriving DecidableEq

/-- A vtkMRMLScalarVolumeNode: node id and the value of its
DICOM.instanceUIDs attribute (None when the attribute is absent,
as GetAttribute returns None then). -/
structure VolumeNode where
  id : Nat
  attrInstanceUIDs : Option String
deriving DecidableEq

/-- A vtkMRMLMarkupsFiducialNode used as the seed point set. -/
structure SeedNode where
  id : Nat
deriving DecidableEq

/-- The slicer.dicomDatabase API surface used by the module. -/
structure DicomDatabase where
  fileForInstance : String → String
  fileValue : String → String → String

/-- Python exceptions the embedded code can raise. -/
inductive PyError where
  | valueError
  | indexError
  | attributeError
deriving DecidableEq

/-- Result of convolutionKernelFromVolumeNode: the kernel value returned and
whether the DICOM database was consulted on the way. -/
structure KernelLookup where
  kernel : Option String
  dbConsulted : Bool
deriving DecidableEq

/-- Tokenizer auxiliary for Python str.split() with no arguments: split on
runs of whitespace, discarding empty tokens. First argument is the remaining
characters, second the (reversed) characters of the token being built. -/
def wsTokens : List Char → List Char → List String
  | [], cur => if cur.isEmpty then [] else [String.mk cur.reverse]
  | c :: cs, cur =>
    if c.isWhitespace then
      if cur.isEmpty then wsTokens cs [] else String.mk cur.reverse :: wsTokens cs []
    else
      wsTokens cs (c :: cur)

/-- Python str.split() with no arguments. -/
def pySplit (s : String) : List String := wsTokens s.data []

/-- DICOM tag for Convolution Kernel, as the source writes it. -/
def convolutionKernelTag : String := "0018,1210"

/-- Embedding of AirwaySegmentationLogic.convolutionKernelFromVolumeNode:
read the DICOM.instanceUIDs attribute; when truthy, look up the file of the
first instance UID in the DICOM database and return that file's value for tag
(0018,1210). `instUIDs.split()[0]` raises IndexError when the attribute is a
nonempty all-whitespace string. -/
def convolutionKernelFromVolumeNode (db : DicomDatabase) (inputVolume : VolumeNode) :
    Except PyError KernelLookup :=
  match inputVolume.attrInstanceUIDs with
  | none => Except.ok { kernel := none, dbConsulted := false }
  | some instUIDs =>
    if instUIDs = "" then Except.ok { kernel := none, dbConsulted := false }
    else
      match pySplit instUIDs with
      | [] => Except.error PyError.indexError
      | uid :: _ =>
        Except.ok { kernel := some (db.fileValue (db.fileForInstance uid) convolutionKernelTag),
                    dbConsulted := true }

/-- The MRML scene: ids of nodes currently present, and a fresh-id counter. -/
structure Scene where
  nodeIds : List Nat
  nextId : Nat
deriving DecidableEq

/-- Scene well-formedness: every present id is below the fresh-id counter. -/
abbrev Scene.wf (s : Scene) : Prop := ∀ i ∈ s.nodeIds, i < s.nextId

/-- slicer.mrmlScene.AddNewNodeByClass: create a node with a fresh id. -/
def Scene.addNode (s : Scene) : Nat × Scene :=
  (s.nextId, { nodeIds := s.nodeIds ++ [s.nextId], nextId := s.nextId + 1 })

/-- slicer.mrmlScene.RemoveNode. -/
def Scene.removeNode (s : Scene) (n : Nat) : Scene :=
  { nodeIds := s.nodeIds.filter (fun x => x ≠ n), nextId := s.nextId }

/-- A value in the CLI parameter dictionary: a node id (GetID string), a
plain string, or an integer. -/
inductive CliValue where
  | id (n : Nat)
  | str (s : String)
  | int (z : Int)
deriving DecidableEq

/-- A CLI parameter dictionary, in insertion order. -/
abbrev CliDict : Type := List (String × CliValue)

/-- Environment of host behavior outside this repository: the DICOM database,
and the segments that ImportLabelmapToSegmentationNode produces from the
label map the external executable wrote (the import oracle). -/
structure Env where
  db : DicomDatabase
  importedSegments : List Segment

/-- The fallback of process lines 303-305: `if not convolutionKernel:
convolutionKernel = "STANDARD"` (falsy = None or empty string). -/
def kernelOrDefault : Option String → String
  | none => "STANDARD"
  | some k => if k = "" then "STANDARD" else k

/-- The warning logged when the kernel falls back to STANDARD. -/
def kernelWarning : String := "Convolution kernel is unknown, STANDARD will be used."

/-- The fixed terminology entry string set on the first segment (Python
adjacent string literals concatenated). -/
def terminologyEntryString : String :=
  "Segmentation category and type - 3D Slicer General Anatomy list~SCT^123037004^Anatomical Structure~SCT^44567001^Trachea~^^~Anatomic codes - DICOM master list~^^~^^"

/-- Everything observable about one run of AirwaySegmentationLogic.process:
the error raised (if any), the scene at return or raise time, the CLI
invocations performed, the warnings logged, and the final content of the
output segmentation node (as passed when invalid). -/
structure ProcessTrace where
  error : Option PyError
  scene : Scene
  cliInvocations : List CliDict
  warnings : List String
  outputSegmentation : Option SegmentationNode
deriving DecidableEq

/-- Embedding of AirwaySegmentationLogic.process. Mirrors the source line by
line: validate the three inputs; determine the convolution kernel with
STANDARD fallback; create the temporary label-map node; build the parameter
dictionary; run the CLI synchronously and remove its node; clear the output
segmentation's segments and import the label map; set the smoothing factor;
set the terminology tag on segment 0 (AttributeError when there is none,
since GetSegment of the empty id returns None); remove the temporary
label-map node. -/
def process (env : Env) (scene : Scene) (inputVolume : Option VolumeNode)
    (inputSeed : Option SeedNode) (outputSegmentation : Option SegmentationNode) :
    ProcessTrace :=
  match inputVolume, inputSeed, outputSegmentation with
  | some iv, some isd, some oseg =>
    match convolutionKernelFromVolumeNode env.db iv with
    | Except.error e =>
      { error := some e, scene := scene, cliInvocations := [], warnings := [],
        outputSegmentation := some oseg }
    | Except.ok kl =>
      let convolutionKernel := kernelOrDefault kl.kernel
      let warnings := if kl.kernel = none ∨ kl.kernel = some "" then [kernelWarning] else []
      let tmp := scene.addNode
      let tmpLabelId := tmp.1
      let scene1 := tmp.2
      let parameters : CliDict :=
        [("inputVolume", CliValue.id iv.id),
         ("reconstructionKernelType", CliValue.str convolutionKernel),
         ("label", CliValue.id tmpLabelId),
         ("seed", CliValue.id isd.id),
         ("labelValue", CliValue.int 170)]
      let cli := scene1.addNode
      let cliNodeId := cli.1
      let scene2 := cli.2
      let scene3 := scene2.removeNode cliNodeId
      let segImported : SegmentationNode :=
        { oseg with segments := env.importedSegments, smoothingFactor := some "0.2" }
      match env.importedSegments with
      | [] =>
        { error := some PyError.attributeError, scene := scene3,
          cliInvocations := [parameters], warnings := warnings,
          outputSegmentation := some segImported }
      | s0 :: rest =>
        let s0Tagged := { s0 with terminologyTag := some terminologyEntryString }
        let segTagged := { segImported with segments := s0Tagged :: rest }
        let scene4 := scene3.removeNode tmpLabelId
        { error := none, scene := scene4, cliInvocations := [parameters],
          warnings := warnings, outputSegmentation := some segTagged }
  | _, _, _ =>
    { error := some PyError.valueError, scene := scene, cliInvocations := [],
      warnings := [], outputSegmentation := outputSegmentation }

/-!
Widget layer: AirwaySegmentationWidget's parameter-node synchronization.
Selectors hold an Option node id (None when nothing is selected; in the
source, currentNodeID is the empty string then, and SetNodeReferenceID with
an empty id clears the reference).
-/

/-- A vtkMRMLScriptedModuleNode parameter node: its node references, as an
association list from reference key to node id. -/
structure ParamNode where
  refs : List (String × Nat)
deriving DecidableEq

/-- GetNodeReference / GetNodeReferenceID: look up a reference key. -/
def ParamNode.getRef (p : ParamNode) (key : String) : Option Nat :=
  (p.refs.find? (fun kv => kv.1 == key)).map (fun kv => kv.2)

/-- SetNodeReferenceID: set or clear a reference key. -/
def ParamNode.setRef (p : ParamNode) (key : String) (v : Option Nat) : ParamNode :=
  match v with
  | none => { refs := p.refs.filter (fun kv => kv.1 ≠ key) }
  | some n => { refs := p.refs.filter (fun kv => kv.1 ≠ key) ++ [(key, n)] }

/-- The widget's UI: the three node selectors and the apply button state. -/
structure UIState where
  inputVolumeSelector : Option Nat
  inputSeedSelector : Option Nat
  outputSegmentationSelector : Option Nat
  applyButtonEnabled : Bool
  applyButtonToolTip : String
deriving DecidableEq

/-- The widget state the two update handlers touch: the observed parameter
node (None after scene close), the reentrancy flag
_updatingGUIFromParameterNode, and the UI. -/
structure WidgetState where
  parameterNode : Option ParamNode
  updatingGUIFromParameterNode : Bool
  ui : UIState
deriving DecidableEq

/-- Embedding of AirwaySegmentationWidget.updateGUIFromParameterNode: return
immediately when there is no parameter node or the reentrancy flag is set;
otherwise set the flag, copy the InputVolume / InputSeed / OutputSegmentation
references into the three selectors, update the apply button, and clear the
flag. -/
def updateGUIFromParameterNode (s : WidgetState) : WidgetState :=
  match s.parameterNode with
  | none => s
  | some p =>
    if s.updatingGUIFromParameterNode then s
    else
      let ui1 : UIState :=
        { s.ui with
          inputVolumeSelector := p.getRef "InputVolume",
          inputSeedSelector := p.getRef "InputSeed",
          outputSegmentationSelector := p.getRef "OutputSegmentation" }
      let ui2 : UIState :=
        if (p.getRef "InputVolume").isSome && (p.getRef "InputSeed").isSome then
          { ui1 with applyButtonToolTip := "Compute airway segmentation",
                     applyButtonEnabled := true }
        else
          { ui1 with applyButtonToolTip := "Select input CT volume and seed point",
                     applyButtonEnabled := false }
      { s with ui := ui2, updatingGUIFromParameterNode := false }

/-- Embedding of AirwaySegmentationWidget.updateParameterNodeFromGUI: return
immediately when there is no parameter node or the reentrancy flag is set;
otherwise store the three selectors on the parameter node — the input volume
under "InputVolume", the input seed under "InputSeed", and the output
segmentation selector under "OutputVolume" (sic, the source's line 217). -/
def updateParameterNodeFromGUI (s : WidgetState) : WidgetState :=
  match s.parameterNode with
  | none => s
  | some p =>
    if s.updatingGUIFromParameterNode then s
    else
      let p1 := p.setRef "InputVolume" s.ui.inputVolumeSelector
      let p2 := p1.setRef "InputSeed" s.ui.inputSeedSelector
      let p3 := p2.setRef "OutputVolume" s.ui.outputSegmentationSelector
      { s with parameterNode := some p3 }

/-!
Test layer: the acceptance check of
AirwaySegmentationTest.test_AirwaySegmentation1. Coordinates are rationals
(exact decimal arithmetic in place of numpy float64).
-/

/-- numpy.isclose on one coordinate: absolute(a - b) is at most
atol + rtol * absolute(b). -/
def npIsclose (rtol atol a b : ℚ) : Prop := |a - b| ≤ atol + rtol * |b|

/-- numpy's default relative tolerance 1e-05. -/
def npDefaultRtol : ℚ := 1 / 100000

/-- The test's absolute tolerance argument, atol=5.0. -/
def testAtol : ℚ := 5

/-- The test's hard-coded expected segment center (-5.5, -5.9, -100.3). -/
def expectedSegmentCenter : ℚ × ℚ × ℚ := (-11/2, -59/10, -1003/10)

/-- The seed point the test places, [-9.8, 3.4, -40.9]. -/
def testSeedPoint : ℚ × ℚ × ℚ := (-49/5, 17/5, -409/10)

/-- The two assertions of test_AirwaySegmentation1, as a predicate on what
the pipeline produced: the number of segments equals 1, and
np.allclose(segmentCenter, expectedsegmentCenter, atol=5.0) holds — numpy's
allclose with its default rtol=1e-05, elementwise over the three
coordinates. -/
def testAssertionsPass (numSegments : Nat) (segmentCenter : ℚ × ℚ × ℚ) : Prop :=
  numSegments = 1 ∧
  npIsclose npDefaultRtol testAtol segmentCenter.1 expectedSegmentCenter.1 ∧
  npIsclose npDefaultRtol testAtol segmentCenter.2.1 expectedSegmentCenter.2.1 ∧
  npIsclose npDefaultRtol testAtol segmentCenter.2.2 expectedSegmentCenter.2.2

/-!
Concrete example inputs, used by the witness theorems.
-/

/-- A concrete DICOM database for witnesses. -/
def exDb : DicomDatabase :=
  { fileForInstance := fun u => u ++ ".dcm",
    fileValue := fun f t => f ++ ":" ++ t }

/-- A concrete imported segment. -/
def exSegment : Segment := { name := "Segment_1", terminologyTag := none }

/-- A concrete environment whose import yields one segment. -/
def exEnv : Env := { db := exDb, importedSegments := [exSegment] }

/-- A concrete input volume loaded from DICOM (two instance UIDs). -/
def exVolume : VolumeNode := { id := 1, attrInstanceUIDs := some "1.2.3 4.5.6" }

/-- A concrete input volume not loaded from DICOM (attribute absent). -/
def exVolumeNoDicom : VolumeNode := { id := 1, attrInstanceUIDs := none }

/-- A concrete seed node. -/
def exSeed : SeedNode := { id := 2 }

/-- A concrete output segmentation holding a pre-existing segment. -/
def exOutSeg : SegmentationNode :=
  { id := 3, segments := [{ name := "old", terminologyTag := some "oldtag" }],
    smoothingFactor := none }

/-- A concrete well-formed scene holding the three nodes. -/
def exScene : Scene := { nodeIds := [1, 2, 3], nextId := 4 }

/-- Concrete widget state: parameter node with no references, all three
selectors holding a selection, reentrancy flag clear. -/
def exWidgetState : WidgetState :=
  { parameterNode := some { refs := [] },
    updatingGUIFromParameterNode := false,
    ui := { inputVolumeSelector := some 3, inputSeedSelector := some 5,
            outputSegmentationSelector := some 7,
            applyButtonEnabled := false, applyButtonToolTip := "" } }

/-- Concrete widget state with the reentrancy flag set (mid-update). -/
def exWidgetStateBusy : WidgetState :=
  { exWidgetState with updatingGUIFromParameterNode := true }

/-- A concrete segment center whose z coordinate is 5.00003 mm away from the
expected center: inside np.allclose's tolerance (which adds rtol times the
expected magnitude) but outside a plain 5.0 mm bound. -/
def testCenterBeyond5 : ℚ × ℚ × ℚ := (-11/2, -59/10, -10530003/100000)

deriving instance DecidableEq for Except

/-- Helper: filtering out a value larger than every element is the
identity. -/
theorem filter_ne_of_forall_lt (xs : List Nat) (n : Nat) (h : ∀ x ∈ xs, x < n) :
    xs.filter (fun x => x ≠ n) = xs := by
  apply List.filter_eq_self.mpr
  intro a ha
  simpa using Nat.ne_of_lt (h a ha)

/-- Helper: adding two fresh nodes and removing both restores the node
list. -/
theorem scene_roundtrip (ids : List Nat) (a : Nat) (h : ∀ x ∈ ids, x < a) :
    (((ids ++ [a]) ++ [a+1]).filter (fun x => x ≠ a+1)).filter (fun x => x ≠ a) = ids := by
  have h1 : ∀ x ∈ ids, x < a + 1 := fun x hx => Nat.lt_succ_of_lt (h x hx)
  simp [List.filter_append, filter_ne_of_forall_lt ids (a+1) h1,
    filter_ne_of_forall_lt ids a h, Nat.succ_ne_self]
  intro x hx
  exact ⟨Nat.ne_of_lt (h x hx), Nat.ne_of_lt (h1 x hx)⟩

/-- Claim C5: convolutionKernelFromVolumeNode reads the DICOM.instanceUIDs
attribute; when it is absent it returns None without consulting the DICOM
database; when it is present (truthy) it takes the first
whitespace-separated instance UID, resolves it to a file through the DICOM
database, and returns that file's value for tag (0018,1210). -/
theorem convolutionKernel_lookup_spec (db : DicomDatabase) :
    (∀ v : VolumeNode, v.attrInstanceUIDs = none →
       convolutionKernelFromVolumeNode db v =
         Except.ok { kernel := none, dbConsulted := false }) ∧
    (∀ (v : VolumeNode) (s uid : String) (rest : List String),
       v.attrInstanceUIDs = some s → s ≠ "" → pySplit s = uid :: rest →
       convolutionKernelFromVolumeNode db v =
         Except.ok { kernel := some (db.fileValue (db.fileForInstance uid) convolutionKernelTag),
                     dbConsulted := true }) := by
  constructor
  · intro v h
    simp [convolutionKernelFromVolumeNode, h]
  · intro v s uid rest hs hne hsplit
    simp [convolutionKernelFromVolumeNode, hs, hne, hsplit]

/-- Witness for claim C5, at a concrete database, a volume with the
attribute absent, and a volume with two instance UIDs. -/
theorem convolutionKernel_lookup_spec_witness :
    convolutionKernelFromVolumeNode exDb exVolumeNoDicom =
      Except.ok { kernel := none, dbConsulted := false } ∧
    convolutionKernelFromVolumeNode exDb exVolume =
      Except.ok { kernel := some (exDb.fileValue (exDb.fileForInstance "1.2.3") convolutionKernelTag),
                  dbConsulted := true } :=
  ⟨(convolutionKernel_lookup_spec exDb).1 exVolumeNoDicom rfl,
   (convolutionKernel_lookup_spec exDb).2 exVolume "1.2.3 4.5.6" "1.2.3" ["4.5.6"]
     rfl (by decide) (by decide)⟩

/-- Claim C2: with all three inputs valid (and a kernel lookup that does not
raise), process performs exactly one CLI invocation, whose dictionary has
exactly the five keys inputVolume, reconstructionKernelType, label, seed and
labelValue, bound to the input volume's id, the DICOM-derived kernel string
with STANDARD fallback, the id of the freshly created label-map node, the
seed node's id, and the integer 170; the label-map id is fresh (not a
pre-existing scene node). -/
theorem process_cli_contract (env : Env) (scene : Scene) (iv : VolumeNode)
    (isd : SeedNode) (oseg : SegmentationNode) (kl : KernelLookup)
    (hwf : scene.wf)
    (hk : convolutionKernelFromVolumeNode env.db iv = Except.ok kl) :
    (process env scene (some iv) (some isd) (some oseg)).cliInvocations =
      [[("inputVolume", CliValue.id iv.id),
        ("reconstructionKernelType", CliValue.str (kernelOrDefault kl.kernel)),
        ("label", CliValue.id scene.nextId),
        ("seed", CliValue.id isd.id),
        ("labelValue", CliValue.int 170)]] ∧
    scene.nextId ∉ scene.nodeIds := by
  constructor
  · rcases henv : env.importedSegments with _ | ⟨s0, rest⟩ <;>
      simp [process, hk, henv, Scene.addNode]
  · intro hmem
    exact lt_irrefl _ (hwf _ hmem)

/-- Witness for claim C2 at concrete inputs. -/
theorem process_cli_contract_witness :
    (process exEnv exScene (some exVolume) (some exSeed) (some exOutSeg)).cliInvocations =
      [[("inputVolume", CliValue.id exVolume.id),
        ("reconstructionKernelType",
          CliValue.str (kernelOrDefault (some "1.2.3.dcm:0018,1210"))),
        ("label", CliValue.id exScene.nextId),
        ("seed", CliValue.id exSeed.id),
        ("labelValue", CliValue.int 170)]] ∧
    exScene.nextId ∉ exScene.nodeIds :=
  process_cli_contract exEnv exScene exVolume exSeed exOutSeg
    { kernel := some "1.2.3.dcm:0018,1210", dbConsulted := true }
    (by decide) (by decide)

/-- Claim C3: assuming the host environment behaves (the kernel lookup does
not raise and the import yields at least one segment), process raises if and
only if one of its three inputs is missing, and in that case it raises the
ValueError at entry, before any CLI invocation, warning, or scene change:
the trace is exactly the initial scene with nothing done. -/
theorem process_raises_iff_missing_input (env : Env) (scene : Scene)
    (iv : Option VolumeNode) (isd : Option SeedNode) (oseg : Option SegmentationNode)
    (hk : ∀ v, iv = some v → ∃ kl, convolutionKernelFromVolumeNode env.db v = Except.ok kl)
    (hseg : env.importedSegments ≠ []) :
    ((process env scene iv isd oseg).error.isSome ↔
       (iv = none ∨ isd = none ∨ oseg = none)) ∧
    ((iv = none ∨ isd = none ∨ oseg = none) →
       process env scene iv isd oseg =
         { error := some PyError.valueError, scene := scene, cliInvocations := [],
           warnings := [], outputSegmentation := oseg }) := by
  rcases iv with _ | v
  · simp [process]
  rcases isd with _ | sd
  · simp [process]
  rcases oseg with _ | og
  · simp [process]
  obtain ⟨kl, hkl⟩ := hk v rfl
  obtain ⟨s0, rest, hE⟩ := List.exists_cons_of_ne_nil hseg
  simp [process, hkl, hE]

/-- Witness for claim C3, at concrete inputs: a valid run raises nothing,
and dropping the seed raises the ValueError with the scene untouched. -/
theorem process_raises_iff_missing_input_witness :
    ¬ (process exEnv exScene (some exVolume) (some exSeed) (some exOutSeg)).error.isSome ∧
    process exEnv exScene (some exVolume) none (some exOutSeg) =
      { error := some PyError.valueError, scene := exScene, cliInvocations := [],
        warnings := [], outputSegmentation := some exOutSeg } := by
  constructor
  · intro h
    rcases (process_raises_iff_missing_input exEnv exScene (some exVolume) (some exSeed)
        (some exOutSeg)
        (fun v hv => by
          cases hv
          exact ⟨{ kernel := some "1.2.3.dcm:0018,1210", dbConsulted := true }, by decide⟩)
        (by decide)).1.mp h with h1 | h1 | h1 <;> cases h1
  · exact (process_raises_iff_missing_input exEnv exScene (some exVolume) none (some exOutSeg)
      (fun v hv => by
        cases hv
        exact ⟨{ kernel := some "1.2.3.dcm:0018,1210", dbConsulted := true }, by decide⟩)
      (by decide)).2 (Or.inr (Or.inl rfl))

/-- Claim C4: when the convolution kernel cannot be determined (the lookup
returns a falsy value: None or the empty string), process logs the warning,
falls back to the string STANDARD as the reconstructionKernelType of the CLI
invocation, and does not abort for this reason (given an import that yields
a segment, the run completes without error). -/
theorem process_kernel_fallback_standard (env : Env) (scene : Scene)
    (iv : VolumeNode) (isd : SeedNode) (oseg : SegmentationNode) (kl : KernelLookup)
    (hk : convolutionKernelFromVolumeNode env.db iv = Except.ok kl)
    (hfalsy : kl.kernel = none ∨ kl.kernel = some "")
    (hseg : env.importedSegments ≠ []) :
    (process env scene (some iv) (some isd) (some oseg)).warnings = [kernelWarning] ∧
    (process env scene (some iv) (some isd) (some oseg)).cliInvocations =
      [[("inputVolume", CliValue.id iv.id),
        ("reconstructionKernelType", CliValue.str "STANDARD"),
        ("label", CliValue.id scene.nextId),
        ("seed", CliValue.id isd.id),
        ("labelValue", CliValue.int 170)]] ∧
    (process env scene (some iv) (some isd) (some oseg)).error = none := by
  obtain ⟨s0, rest, hE⟩ := List.exists_cons_of_ne_nil hseg
  have hstd : kernelOrDefault kl.kernel = "STANDARD" := by
    rcases hfalsy with h | h <;> simp [kernelOrDefault, h]
  refine ⟨?_, ?_, ?_⟩ <;> simp [process, hk, hE, hstd, hfalsy, Scene.addNode]

/-- Witness for claim C4, at a volume not loaded from DICOM. -/
theorem process_kernel_fallback_standard_witness :
    (process exEnv exScene (some exVolumeNoDicom) (some exSeed) (some exOutSeg)).warnings =
      [kernelWarning] ∧
    (process exEnv exScene (some exVolumeNoDicom) (some exSeed) (some exOutSeg)).cliInvocations =
      [[("inputVolume", CliValue.id exVolumeNoDicom.id),
        ("reconstructionKernelType", CliValue.str "STANDARD"),
        ("label", CliValue.id exScene.nextId),
        ("seed", CliValue.id exSeed.id),
        ("labelValue", CliValue.int 170)]] ∧
    (process exEnv exScene (some exVolumeNoDicom) (some exSeed) (some exOutSeg)).error = none :=
  process_kernel_fallback_standard exEnv exScene exVolumeNoDicom exSeed exOutSeg
    { kernel := none, dbConsulted := false }
    (by decide) (Or.inl rfl) (by decide)

/-- Claim C7: on a successful run (valid inputs, lookup does not raise,
the import yields a segment), both transient nodes — the temporary label-map
node and the CLI module node — are removed before process returns: the
scene's node set is exactly what it was at entry. -/
theorem process_removes_transient_nodes (env : Env) (scene : Scene)
    (iv : VolumeNode) (isd : SeedNode) (oseg : SegmentationNode) (kl : KernelLookup)
    (hwf : scene.wf)
    (hk : convolutionKernelFromVolumeNode env.db iv = Except.ok kl)
    (hseg : env.importedSegments ≠ []) :
    (process env scene (some iv) (some isd) (some oseg)).error = none ∧
    (process env scene (some iv) (some isd) (some oseg)).scene.nodeIds = scene.nodeIds := by
  obtain ⟨s0, rest, hE⟩ := List.exists_cons_of_ne_nil hseg
  refine ⟨by simp [process, hk, hE], ?_⟩
  simp only [process, hk, hE, Scene.addNode, Scene.removeNode]
  exact scene_roundtrip scene.nodeIds scene.nextId hwf

/-- Witness for claim C7 at concrete inputs. -/
theorem process_removes_transient_nodes_witness :
    (process exEnv exScene (some exVolume) (some exSeed) (some exOutSeg)).error = none ∧
    (process exEnv exScene (some exVolume) (some exSeed) (some exOutSeg)).scene.nodeIds =
      exScene.nodeIds :=
  process_removes_transient_nodes exEnv exScene exVolume exSeed exOutSeg
    { kernel := some "1.2.3.dcm:0018,1210", dbConsulted := true }
    (by decide) (by decide) (by decide)

/-- Claim C8: after importing the label-map result, process sets on the
first segment (index 0) the terminology tag, whose value is the fixed
constant terminologyEntryString — whose third tilde-separated component is
the SCT code 44567001 for Trachea — for every input alike. -/
theorem process_sets_trachea_terminology (env : Env) (scene : Scene)
    (iv : VolumeNode) (isd : SeedNode) (oseg : SegmentationNode) (kl : KernelLookup)
    (s0 : Segment) (rest : List Segment)
    (hk : convolutionKernelFromVolumeNode env.db iv = Except.ok kl)
    (hseg : env.importedSegments = s0 :: rest) :
    ((process env scene (some iv) (some isd) (some oseg)).outputSegmentation.bind
        (fun g => g.segments.head?)).map (fun t => t.terminologyTag) =
      some (some terminologyEntryString) ∧
    terminologyEntryString =
      "Segmentation category and type - 3D Slicer General Anatomy list" ++
      "~SCT^123037004^Anatomical Structure" ++ "~SCT^44567001^Trachea" ++ "~^^" ++
      "~Anatomic codes - DICOM master list" ++ "~^^" ++ "~^^" := by
  refine ⟨?_, rfl⟩
  simp [process, hk, hseg]

/-- Witness for claim C8 at concrete inputs. -/
theorem process_sets_trachea_terminology_witness :
    ((process exEnv exScene (some exVolume) (some exSeed) (some exOutSeg)).outputSegmentation.bind
        (fun g => g.segments.head?)).map (fun t => t.terminologyTag) =
      some (some terminologyEntryString) :=
  (process_sets_trachea_terminology exEnv exScene exVolume exSeed exOutSeg
    { kernel := some "1.2.3.dcm:0018,1210", dbConsulted := true }
    exSegment [] (by decide) rfl).1

/-- Claim C10: process replaces rather than appends: whatever segments the
output segmentation held at entry, after a successful run its content is
exactly the segments imported from this run's label map (the first one
carrying the terminology tag), with the smoothing factor set to 0.2 —
the conclusion does not depend on the segmentation's prior segments. -/
theorem process_replaces_segments (env : Env) (scene : Scene)
    (iv : VolumeNode) (isd : SeedNode) (oseg : SegmentationNode) (kl : KernelLookup)
    (s0 : Segment) (rest : List Segment)
    (hk : convolutionKernelFromVolumeNode env.db iv = Except.ok kl)
    (hseg : env.importedSegments = s0 :: rest) :
    (process env scene (some iv) (some isd) (some oseg)).outputSegmentation =
      some { id := oseg.id,
             segments := { s0 with terminologyTag := some terminologyEntryString } :: rest,
             smoothingFactor := some "0.2" } := by
  simp [process, hk, hseg]

/-- Witness for claim C10 at concrete inputs: the pre-existing segment of
exOutSeg is gone, only the imported segment remains. -/
theorem process_replaces_segments_witness :
    (process exEnv exScene (some exVolume) (some exSeed) (some exOutSeg)).outputSegmentation =
      some { id := exOutSeg.id,
             segments := [{ name := "Segment_1", terminologyTag := some terminologyEntryString }],
             smoothingFactor := some "0.2" } :=
  process_replaces_segments exEnv exScene exVolume exSeed exOutSeg
    { kernel := some "1.2.3.dcm:0018,1210", dbConsulted := true }
    exSegment [] (by decide) rfl

/-- Claim C1 (code bug): a write-then-read round-trip at a concrete widget
state. The two input selectors round-trip, but the output-segmentation
selection (node 7) does not: updateParameterNodeFromGUI stores it under the
key "OutputVolume" while updateGUIFromParameterNode restores the selector
from the key "OutputSegmentation", so the selection is lost and the selector
ends up empty. -/
theorem outputSelector_write_read_key_mismatch :
    ((updateGUIFromParameterNode (updateParameterNodeFromGUI exWidgetState)).ui.inputVolumeSelector
      = some 3) ∧
    ((updateGUIFromParameterNode (updateParameterNodeFromGUI exWidgetState)).ui.inputSeedSelector
      = some 5) ∧
    (exWidgetState.ui.outputSegmentationSelector = some 7) ∧
    ((updateParameterNodeFromGUI exWidgetState).parameterNode =
      some { refs := [("InputVolume", 3), ("InputSeed", 5), ("OutputVolume", 7)] }) ∧
    ((updateGUIFromParameterNode
        (updateParameterNodeFromGUI exWidgetState)).ui.outputSegmentationSelector = none) := by
  decide

/-- Claim C6: the reentrancy flag guards the two update handlers: while it
is set, either handler returns the state unchanged (no parameter-node write,
no GUI write); and a top-level call (flag clear at entry) of either handler
leaves the flag clear when it completes. -/
theorem reentrancy_flag_guards_updates (s : WidgetState) :
    (s.updatingGUIFromParameterNode = true →
       updateGUIFromParameterNode s = s ∧ updateParameterNodeFromGUI s = s) ∧
    (s.updatingGUIFromParameterNode = false →
       (updateGUIFromParameterNode s).updatingGUIFromParameterNode = false ∧
       (updateParameterNodeFromGUI s).updatingGUIFromParameterNode = false) := by
  obtain ⟨pn, flag, ui⟩ := s
  cases pn <;> cases flag <;>
    simp [updateGUIFromParameterNode, updateParameterNodeFromGUI]

/-- Witness for claim C6: at a concrete busy state both handlers are no-ops,
and from a concrete idle state both handlers end with the flag clear. -/
theorem reentrancy_flag_guards_updates_witness :
    (updateGUIFromParameterNode exWidgetStateBusy = exWidgetStateBusy ∧
     updateParameterNodeFromGUI exWidgetStateBusy = exWidgetStateBusy) ∧
    ((updateGUIFromParameterNode exWidgetState).updatingGUIFromParameterNode = false ∧
     (updateParameterNodeFromGUI exWidgetState).updatingGUIFromParameterNode = false) :=
  ⟨(reentrancy_flag_guards_updates exWidgetStateBusy).1 rfl,
   (reentrancy_flag_guards_updates exWidgetState).2 rfl⟩

/-- Claim C9 (counterexample): a run whose segment center's z coordinate is
5.00003 mm from the expected value passes the test's assertions (np.allclose
with atol=5.0 keeps numpy's default rtol=1e-5, so the z tolerance is
5.001003), yet it is not within an absolute tolerance of 5.0 mm per
coordinate — refuting the claimed "passes exactly when within 5.0 mm". -/
theorem test_tolerance_counterexample :
    testAssertionsPass 1 testCenterBeyond5 ∧
    ¬ |testCenterBeyond5.2.2 - expectedSegmentCenter.2.2| ≤ 5 := by
  constructor
  · refine ⟨rfl, ?_, ?_, ?_⟩ <;>
      norm_num [npIsclose, npDefaultRtol, testAtol, expectedSegmentCenter, testCenterBeyond5,
        abs_of_nonpos, abs_of_nonneg]
  · norm_num [expectedSegmentCenter, testCenterBeyond5, abs_of_nonneg]

/-- Claim C9 (amended): the test's assertions pass exactly when the output
has exactly one segment and each coordinate of its center is within
atol + rtol times the magnitude of the expected coordinate of the expected
center, with atol = 5.0 and numpy's default rtol = 1e-5: bounds 5.000055,
5.000059 and 5.001003 on the x, y and z offsets. -/
theorem test_passes_iff_allclose (n : Nat) (c : ℚ × ℚ × ℚ) :
    testAssertionsPass n c ↔
      (n = 1 ∧ |c.1 + 11/2| ≤ 5 + 11/200000 ∧
       |c.2.1 + 59/10| ≤ 5 + 59/1000000 ∧
       |c.2.2 + 1003/10| ≤ 5 + 1003/1000000) := by
  unfold testAssertionsPass npIsclose npDefaultRtol testAtol expectedSegmentCenter
  norm_num [sub_neg_eq_add]
  intro _
  rw [abs_of_nonneg (by norm_num : (0:ℚ) ≤ 11/2),
    abs_of_nonneg (by norm_num : (0:ℚ) ≤ 59/10),
    abs_of_nonneg (by norm_num : (0:ℚ) ≤ 1003/10)]
  norm_num

end AirwaySegmentation
